import Mathlib

/-
Verification of the brand-sop data pipeline.

This file gives a shallow embedding of the logic-bearing core of the
repository and proves the specified properties about it:

  * `append_rolling_data` (src/utils/upload.py): the rolling-window
    append-with-eviction algorithm over a spreadsheet-backed table.
  * `create_pivot` / `convert_df` (src/utils/process.py): date/brand
    filtering, column remapping, monetary coercion and aggregation.
  * `create_excel_from_breakdown` / `get_company_config` /
    `process_breakdown` (src/utils/creator.py): the config-driven layout
    synthesizer.
  * `upload` (src/utils/upload.py): the plain full-replace writer.

Worksheets are modelled as lists of rows, a row being a list of cells.
Mutations of the external spreadsheet are modelled as explicit operation
traces (delete / append / clear / update) interpreted against a stored
grid, so that ordering facts (delete strictly before append, clear
strictly before write) are visible in the statements.
-/

namespace BrandSop

/-- Model of a timestamp as stored in the dump: an integral calendar day
plus a sub-day component. `pandas .dt.date` truncation keeps only `day`. -/
structure Timestamp where
  day : Int
  nsOfDay : Nat
deriving DecidableEq, Repr

/-- Rendering of a timestamp as a string, modelling Python `str(ts)`. -/
def timestampStr (t : Timestamp) : String :=
  toString t.day ++ "." ++ toString t.nsOfDay

/-- A spreadsheet / dataframe cell: a finite numeric value, a missing
value (NaN / None), an infinity, a string, or a datetime value. -/
inductive Cell where
  | num (q : ℚ)
  | nan
  | inf (neg : Bool)
  | str (s : String)
  | time (t : Timestamp)
deriving DecidableEq, Repr

/-- Per-cell effect of `sanitize_dataframe` (src/utils/upload.py, lines
23-59): datetime values become strings, NaN becomes the empty string,
infinities become the empty string, finite numerics stay numeric
(Python `float(val)`), strings are kept. -/
def sanitizeCell : Cell → Cell
  | Cell.num q => Cell.num q
  | Cell.nan => Cell.str ""
  | Cell.inf _ => Cell.str ""
  | Cell.str s => Cell.str s
  | Cell.time t => Cell.str (timestampStr t)

/-- `sanitize_dataframe` emits one cleaned row per input row. -/
def sanitizeRow (row : List Cell) : List Cell :=
  row.map sanitizeCell

/-- The spreadsheet mutations issued by the rolling writer:
`delete_rows` with 1-based inclusive bounds, and `append_rows`. -/
inductive SheetOp where
  | deleteRows (startIndex endIndex : Nat)
  | appendRows (rows : List (List Cell))
deriving DecidableEq, Repr

/-- Interpretation of one mutation against the stored grid.
`delete_rows s e` removes stored rows `s..e` (1-based, inclusive);
`append_rows` appends at the bottom. -/
def applySheetOp (table : List (List Cell)) : SheetOp → List (List Cell)
  | SheetOp.deleteRows s e => table.take (s - 1) ++ table.drop e
  | SheetOp.appendRows rs => table ++ rs

/-- Interpretation of a whole mutation trace, first op first. -/
def applySheetOps (table : List (List Cell)) (ops : List SheetOp) : List (List Cell) :=
  ops.foldl applySheetOp table

/-- The clamped eviction count of `append_rolling_data`: the overflow
`(current + new) - max_rows`, reduced to `current - 1` (the number of
data rows, i.e. everything but the header) when it exceeds it. -/
def rolling_rows_to_delete (current_row_count new_row_count max_rows : Nat) : Nat :=
  if current_row_count - 1 < current_row_count + new_row_count - max_rows then
    current_row_count - 1
  else current_row_count + new_row_count - max_rows

/-- Trace of mutations issued by `append_rolling_data` on the
existing-worksheet path (src/utils/upload.py, lines 157-243).  An empty
frame is rejected up front (no mutation at all).  Otherwise, when the
current stored row count (header included) plus the incoming row count
exceeds `max_rows`, it deletes the clamped number of oldest data rows via
`delete_rows 2 (2 + rows_to_delete - 1)`, and only then appends the
sanitized new rows. -/
def append_rolling_data (table new_rows : List (List Cell)) (max_rows : Nat) : List SheetOp :=
  if new_rows.isEmpty then []
  else
    (if max_rows < table.length + new_rows.length then
      (if 0 < rolling_rows_to_delete table.length new_rows.length max_rows then
        [SheetOp.deleteRows 2
          (2 + rolling_rows_to_delete table.length new_rows.length max_rows - 1)]
      else [])
    else [])
    ++ [SheetOp.appendRows (new_rows.map sanitizeRow)]

/-- Stored table used in concrete rolling-append evaluations: header plus
one data row. -/
def rollTable2 : List (List Cell) :=
  [[Cell.str "H"], [Cell.str "a"]]

/-- Batch of three incoming rows. -/
def rollNew3 : List (List Cell) :=
  [[Cell.str "b"], [Cell.str "c"], [Cell.str "d"]]

/-- Stored table at capacity five: header plus four data rows. -/
def rollTable5 : List (List Cell) :=
  [[Cell.str "H"], [Cell.str "a"], [Cell.str "b"], [Cell.str "c"], [Cell.str "d"]]

/-- Batch of three incoming rows for the eviction scenario. -/
def rollNewE : List (List Cell) :=
  [[Cell.str "e"], [Cell.str "f"], [Cell.str "g"]]

/-- Small table and batch staying under capacity. -/
def rollTableSmall : List (List Cell) :=
  [[Cell.str "H"], [Cell.str "a"]]

/-- One incoming row for the under-capacity scenario. -/
def rollNewSmall : List (List Cell) :=
  [[Cell.str "x"]]

/-- The monetary field of a dump row, as seen by
`pd.to_numeric(errors = coerce)`: a numeric value (including numeric
strings, which `to_numeric` parses), a string that does not parse as a
number, or a missing value. -/
inductive AmountVal where
  | num (q : ℚ)
  | nonNumeric (s : String)
  | missing
deriving DecidableEq, Repr

/-- A row of the Loadshare dump as consumed by `create_pivot`
(src/utils/process.py): the source field names of the report. -/
structure ReportRow where
  customerName : String
  createdDate : Timestamp
  location : String
  employeeName : String
  employeeNumber : String
  amountPayable : AmountVal
  status : String
  podDate : String
  deliveryPaymentType : String
  pincode : String
  orderCategory : String
  waybillNo : String
deriving DecidableEq, Repr

/-- A row of the Breakdown Table produced by `create_pivot`: the eleven
canonical fields of `convert_df`, with the constant source tag and the
copied reference id prepended, and the monetary field already coerced. -/
structure BreakdownRow where
  source : String
  referenceId : String
  brandCustomerName : String
  creationDate : Timestamp
  partnerNameLocation : String
  riderNameEmployeeName : String
  riderIdEmployeeNumber : String
  codAmountPayable : ℚ
  fulfillmentStatus : String
  terminalTimePodDate : String
  deliveryPaymentType : String
  pincode : String
  orderCategory : String
deriving DecidableEq, Repr

/-- `pd.to_numeric(col, errors = coerce).fillna(0)`: numeric values kept,
anything non-numeric or missing becomes 0 (src/utils/process.py, line 91). -/
def to_numeric_fillna_zero : AmountVal → ℚ
  | AmountVal.num q => q
  | AmountVal.nonNumeric _ => 0
  | AmountVal.missing => 0

/-- The row filter of `create_pivot` (src/utils/process.py, lines 76-80):
first the date mask, comparing the creation timestamp truncated to
calendar day against the closed interval, then the exact brand match. -/
def pivot_filter (df : List ReportRow) (startDate endDate : Int) (brand : String) :
    List ReportRow :=
  (df.filter (fun r =>
      decide (startDate ≤ r.createdDate.day) && decide (r.createdDate.day ≤ endDate))).filter
    (fun r => r.customerName == brand)

/-- Per-row effect of `convert_df` plus the two inserted columns and the
monetary coercion (src/utils/process.py, lines 11-55 and 85-91): rename
the eleven copied fields to their canonical names, prepend the constant
source tag and the copied waybill reference, and coerce the amount. -/
def convert_row (r : ReportRow) : BreakdownRow :=
  { source := "LOADSHARE"
    referenceId := r.waybillNo
    brandCustomerName := r.customerName
    creationDate := r.createdDate
    partnerNameLocation := r.location
    riderNameEmployeeName := r.employeeName
    riderIdEmployeeNumber := r.employeeNumber
    codAmountPayable := to_numeric_fillna_zero r.amountPayable
    fulfillmentStatus := r.status
    terminalTimePodDate := r.podDate
    deliveryPaymentType := r.deliveryPaymentType
    pincode := r.pincode
    orderCategory := r.orderCategory }

/-- The Breakdown Table emitted by `create_pivot` (and persisted as
temp/breakdown.csv): the filtered rows, remapped. -/
def create_pivot_breakdown (df : List ReportRow) (startDate endDate : Int) (brand : String) :
    List BreakdownRow :=
  (pivot_filter df startDate endDate brand).map convert_row

/-- The distinct brand names appearing in a breakdown, the index of the
pivot table. -/
def pivot_index (bd : List BreakdownRow) : List String :=
  (bd.map (fun r => r.brandCustomerName)).dedup

/-- `create_pivot` (src/utils/process.py, lines 58-108): the pivot table
as brand / summed-amount pairs over the breakdown, one entry per distinct
brand (after filtering there is at most one). -/
def create_pivot (df : List ReportRow) (startDate endDate : Int) (brand : String) :
    List (String × ℚ) :=
  (pivot_index (create_pivot_breakdown df startDate endDate brand)).map
    (fun b =>
      (b, (((create_pivot_breakdown df startDate endDate brand).filter
              (fun r => r.brandCustomerName == b)).map
            (fun r => r.codAmountPayable)).sum))

/-- A concrete dump row for the brand Acme, dated day 5, amount 10. -/
def acmeRow : ReportRow :=
  { customerName := "Acme"
    createdDate := { day := 5, nsOfDay := 0 }
    location := "L1"
    employeeName := "E"
    employeeNumber := "7"
    amountPayable := AmountVal.num 10
    status := "DEL"
    podDate := "P"
    deliveryPaymentType := "COD"
    pincode := "110001"
    orderCategory := "B2C"
    waybillNo := "W1" }

/-- A concrete dump row whose amount field does not parse as a number. -/
def badAmountRow : ReportRow :=
  { customerName := "Acme"
    createdDate := { day := 6, nsOfDay := 3 }
    location := "L2"
    employeeName := "E2"
    employeeNumber := "8"
    amountPayable := AmountVal.nonNumeric "n/a"
    status := "DEL"
    podDate := "P"
    deliveryPaymentType := "COD"
    pincode := "110002"
    orderCategory := "B2C"
    waybillNo := "W2" }

/-- The breakdown CSV as read back by `create_excel_from_breakdown`:
named columns of string cells, plus the row count of the frame. -/
structure Breakdown where
  columns : List (String × List String)
  nrows : Nat
deriving DecidableEq, Repr

/-- A per-company Layout Spec as stored in the config collection
(src/utils/creator.py): header lines, gap count, ordered target-column
to canonical-field mapping, and the optional UTR column name. -/
structure CompanyConfig where
  company_name : String
  headers : List String
  line_gaps : Nat
  column_mapping : List (String × String)
  utr_column_name : Option String
deriving DecidableEq, Repr

/-- `config.get(utr_column_name, UTR)`: the configured UTR column name,
defaulting to UTR. -/
def utrColumnName (config : CompanyConfig) : String :=
  config.utr_column_name.getD "UTR"

/-- Python dict membership test on an association list. -/
def dictContains (d : List (String × α)) (k : String) : Bool :=
  d.any (fun p => p.1 == k)

/-- Python dict assignment `d[k] = v`: overwrites in place when the key
exists (insertion order preserved), otherwise appends at the end. -/
def dictInsert (d : List (String × α)) (k : String) (v : α) : List (String × α) :=
  if dictContains d k then d.map (fun p => if p.1 == k then (k, v) else p)
  else d ++ [(k, v)]

/-- Python dict lookup: the value at the first (hence only) occurrence of
the key. -/
def dictGet (d : List (String × α)) (k : String) : Option α :=
  (d.find? (fun p => p.1 == k)).map Prod.snd

/-- The keys of a dict, in insertion order. -/
def dictKeys (d : List (String × α)) : List String :=
  d.map Prod.fst

/-- `df_breakdown[old_col]` when present, else the empty-fill
`[the empty string] * len(df_breakdown)` used by the warning branch
(src/utils/creator.py, lines 50-55). -/
def breakdownColumn (bd : Breakdown) (name : String) : List String :=
  match bd.columns.find? (fun c => c.1 == name) with
  | some c => c.2
  | none => List.replicate bd.nrows ""

/-- The `new_data` dict of `create_excel_from_breakdown`: one entry per
mapping item `(new_col, old_col)` holding the breakdown column (or the
empty fill), then the UTR entry `[empty] * len(df_breakdown)` assigned
last — overwriting a mapped column if the UTR name collides with it. -/
def build_new_data (bd : Breakdown) (config : CompanyConfig) : List (String × List String) :=
  dictInsert
    (config.column_mapping.foldl
      (fun acc p => dictInsert acc p.1 (breakdownColumn bd p.2)) [])
    (utrColumnName config)
    (List.replicate bd.nrows "")

/-- The data rows of `df_new.values`: row `i` takes the `i`-th value of
each column in dict order. -/
def df_values_rows (cols : List (String × List String)) (n : Nat) : List (List String) :=
  (List.range n).map (fun i => cols.map (fun c => c.2.getD i ""))

/-- The document emitted by `create_excel_from_breakdown`
(src/utils/creator.py, lines 17-96), as its grid of rows: each header
line on its own single-cell row, `line_gaps` blank rows, the column-name
row, then one data row per breakdown row. -/
def create_excel_from_breakdown (bd : Breakdown) (config : CompanyConfig) :
    List (List String) :=
  config.headers.map (fun h => [h])
  ++ List.replicate config.line_gaps []
  ++ [dictKeys (build_new_data bd config)]
  ++ df_values_rows (build_new_data bd config) bd.nrows

/-- `get_company_config` (src/utils/creator.py, lines 9-14): first config
whose company name matches, or a raised `ValueError` modelled as an
`Except.error`. -/
def get_company_config (configs : List CompanyConfig) (company_name : String) :
    Except String CompanyConfig :=
  match configs.find? (fun c => c.company_name == company_name) with
  | some c => Except.ok c
  | none => Except.error ("Configuration for company " ++ company_name ++ " not found")

/-- `process_breakdown` (src/utils/creator.py, lines 98-120): resolve the
company config, then produce the output document; a config-resolution
error aborts before any document is created, uploaded or saved. -/
def process_breakdown (configs : List CompanyConfig) (bd : Breakdown) (company_name : String) :
    Except String (List (List String)) :=
  match get_company_config configs company_name with
  | Except.ok config => Except.ok (create_excel_from_breakdown bd config)
  | Except.error e => Except.error e

/-- A layout spec whose UTR column name (the default) collides with a
mapped target column name. -/
def cfgCollide : CompanyConfig :=
  { company_name := "COLLIDE"
    headers := []
    line_gaps := 0
    column_mapping := [("UTR", "Amount")]
    utr_column_name := none }

/-- One-row breakdown carrying an Amount column. -/
def bdCollide : Breakdown :=
  { columns := [("Amount", ["5"])]
    nrows := 1 }

/-- A well-formed layout spec: two header lines, one gap, two mapped
columns and a fresh UTR column name. -/
def cfgDemo : CompanyConfig :=
  { company_name := "DEMO"
    headers := ["Company Demo", "Payout"]
    line_gaps := 1
    column_mapping := [("Ref", "Reference ID/Waybill No"), ("Amt", "COD Amount/Amount payable")]
    utr_column_name := some "UTR No" }

/-- Two-row breakdown providing only the first mapped canonical field, so
the second mapped column must be empty-filled. -/
def bdDemo : Breakdown :=
  { columns := [("Reference ID/Waybill No", ["W1", "W2"])]
    nrows := 2 }

/-- ASCII lowercasing of one character, modelling `str.lower()` on the
worksheet titles used here. -/
def lowerChar (c : Char) : Char :=
  if c.toNat ≥ 65 ∧ c.toNat ≤ 90 then Char.ofNat (c.toNat + 32) else c

/-- Whether the text starts with the pattern. -/
def charsStartWith : List Char → List Char → Bool
  | [], _ => true
  | _ :: _, [] => false
  | p :: ps, c :: cs => p == c && charsStartWith ps cs

/-- Whether the pattern occurs anywhere in the text. -/
def charsContain (pat : List Char) : List Char → Bool
  | [] => charsStartWith pat []
  | c :: cs => charsStartWith pat (c :: cs) || charsContain pat cs

/-- The branch test of `upload`: whether `pivot` occurs in
`sheet_name.lower()` (src/utils/upload.py, line 105). -/
def contains_pivot (sheet_name : String) : Bool :=
  charsContain "pivot".data (sheet_name.data.map lowerChar)

/-- Per-cell cleaning of the pivot branch of `upload` (lines 107-138):
`fillna` turns NaN into the empty string, numpy numerics stay numeric,
everything else is stringified.  Unlike `sanitize_dataframe`, infinities
are kept (they are numpy floats). -/
def pivotCleanCell : Cell → Cell
  | Cell.num q => Cell.num q
  | Cell.nan => Cell.str ""
  | Cell.inf b => Cell.inf b
  | Cell.str s => Cell.str s
  | Cell.time t => Cell.str (timestampStr t)

/-- A pandas DataFrame as `upload` sees it: a named index with one entry
per row, the column names, and the rows of body cells. -/
structure DFrame where
  indexName : String
  indexVals : List Cell
  colNames : List String
  rows : List (List Cell)
deriving DecidableEq, Repr

/-- The value block `upload` writes at A1: on the pivot branch the frame
is `reset_index`-ed first, so the header row is the index name followed
by the column names and each body row gains the index value in front,
cleaned by the pivot conversion; otherwise the header row is exactly the
column names and the body is `sanitize_dataframe`. -/
def upload_values (df : DFrame) (sheet_name : String) : List (List Cell) :=
  if contains_pivot sheet_name then
    (df.indexName :: df.colNames).map Cell.str
      :: (List.zipWith (fun i r => i :: r) df.indexVals df.rows).map
          (fun row => row.map pivotCleanCell)
  else
    df.colNames.map Cell.str :: df.rows.map sanitizeRow

/-- The worksheet mutations issued by `upload`: create a fresh worksheet,
clear an existing one, or write a block of values at cell A1. -/
inductive UploadOp where
  | createWorksheet
  | clearWorksheet
  | updateA1 (values : List (List Cell))
deriving DecidableEq, Repr

/-- Trace of mutations issued by `upload` (src/utils/upload.py, lines
62-154): create the worksheet when it does not exist, otherwise select
and clear it; then write the prepared block at A1. -/
def upload (wsExists : Bool) (df : DFrame) (sheet_name : String) : List UploadOp :=
  (if wsExists then [UploadOp.clearWorksheet] else [UploadOp.createWorksheet])
  ++ [UploadOp.updateA1 (upload_values df sheet_name)]

/-- Writing a block at A1 over an existing grid: within the block, new
cells overwrite the old row prefix and old cells beyond the block width
survive; rows below the block survive; the grid grows if the block is
taller. -/
def updateA1Grid : List (List Cell) → List (List Cell) → List (List Cell)
  | g, [] => g
  | [], v => v
  | oldRow :: g, newRow :: v => (newRow ++ oldRow.drop newRow.length) :: updateA1Grid g v

/-- Interpretation of one worksheet mutation: a created worksheet starts
empty, clearing empties every cell, updating writes the block. -/
def applyUploadOp (g : List (List Cell)) : UploadOp → List (List Cell)
  | UploadOp.createWorksheet => []
  | UploadOp.clearWorksheet => []
  | UploadOp.updateA1 v => updateA1Grid g v

/-- Interpretation of a whole worksheet mutation trace, first op first. -/
def applyUploadOps (g : List (List Cell)) (ops : List UploadOp) : List (List Cell) :=
  ops.foldl applyUploadOp g

/-- A one-row, one-column pivot frame: index `Brand/Customer Name`, one
amount column. -/
def dfPivotDemo : DFrame :=
  { indexName := "Brand/Customer Name"
    indexVals := [Cell.str "Acme"]
    colNames := ["COD Amount/Amount payable"]
    rows := [[Cell.str "10"]] }

/-- A previously stored worksheet grid. -/
def gridOld : List (List Cell) :=
  [[Cell.str "stale1"], [Cell.str "stale2"]]

/-- A plain two-column frame for the non-pivot branch. -/
def dfPlainDemo : DFrame :=
  { indexName := "index"
    indexVals := [Cell.num 0, Cell.num 1]
    colNames := ["A", "B"]
    rows := [[Cell.str "a1", Cell.nan], [Cell.num 3, Cell.str "b2"]] }

/-- Closed form of the clamped eviction count. -/
theorem rolling_rows_to_delete_eq_min (c n m : Nat) :
    rolling_rows_to_delete c n m = min (c - 1) (c + n - m) := by
  unfold rolling_rows_to_delete
  split <;> omega

/-- C1 (as stated) is false: with capacity `max_rows = 3`, a stored table
of 2 rows (header plus one data row) and a batch of 3 new rows, the
clamped eviction deletes only one data row, and the stored table ends at
4 rows, exceeding `max_rows`. -/
theorem claim_C1_counterexample :
    3 < (applySheetOps rollTable2 (append_rolling_data rollTable2 rollNew3 3)).length := by
  decide

/-- C1 (amended): appending a non-empty batch of `N` rows to an existing
table of `C` rows (header included) leaves at most
`max max_rows (N + 1)` stored rows — in particular at most `max_rows`
whenever `N + 1 <= max_rows`; and if `C + N <= max_rows`, no rows are
evicted: the result is exactly the old table followed by the sanitized
new rows. -/
theorem append_rolling_capacity (table new_rows : List (List Cell)) (max_rows : Nat)
    (hheader : 0 < table.length) (hnew : new_rows ≠ []) :
    (applySheetOps table (append_rolling_data table new_rows max_rows)).length
      ≤ max max_rows (new_rows.length + 1)
    ∧ (table.length + new_rows.length ≤ max_rows →
        applySheetOps table (append_rolling_data table new_rows max_rows)
          = table ++ new_rows.map sanitizeRow) := by
  have hne : new_rows.isEmpty = false := by
    cases new_rows with
    | nil => exact absurd rfl hnew
    | cons a l => rfl
  have hmin := rolling_rows_to_delete_eq_min table.length new_rows.length max_rows
  constructor
  · unfold append_rolling_data
    rw [if_neg (by simp [hne])]
    by_cases hcap : max_rows < table.length + new_rows.length
    · rw [if_pos hcap]
      by_cases hdel : 0 < rolling_rows_to_delete table.length new_rows.length max_rows
      · rw [if_pos hdel]
        simp only [List.singleton_append, applySheetOps, List.foldl_cons, List.foldl_nil,
          applySheetOp, List.length_append, List.length_take, List.length_drop,
          List.length_map]
        omega
      · rw [if_neg hdel]
        simp only [List.nil_append, applySheetOps, List.foldl_cons, List.foldl_nil,
          applySheetOp, List.length_append, List.length_map]
        omega
    · rw [if_neg hcap]
      simp only [List.nil_append, applySheetOps, List.foldl_cons, List.foldl_nil,
        applySheetOp, List.length_append, List.length_map]
      omega
  · intro hle
    unfold append_rolling_data
    rw [if_neg (by simp [hne]), if_neg (by omega)]
    simp [applySheetOps, applySheetOp]

/-- C1 (amended) witness at a concrete input: 2 stored rows, one new row,
capacity 10. -/
theorem append_rolling_capacity_witness :
    (applySheetOps rollTableSmall (append_rolling_data rollTableSmall rollNewSmall 10)).length
      ≤ max 10 (rollNewSmall.length + 1)
    ∧ (rollTableSmall.length + rollNewSmall.length ≤ 10 →
        applySheetOps rollTableSmall (append_rolling_data rollTableSmall rollNewSmall 10)
          = rollTableSmall ++ rollNewSmall.map sanitizeRow) :=
  append_rolling_capacity rollTableSmall rollNewSmall 10 (by decide) (by decide)

/-- C2: on the eviction path (`C + N > max_rows` with at least one
deletable data row), `append_rolling_data` issues exactly one deletion of
the contiguous block of stored rows `2 .. d + 1` — the
`d = min (C + N - max_rows) (C - 1)` oldest data rows, immediately after
the header — strictly before the single append, and the resulting table
is the untouched header followed by the surviving (most recent) data rows
and then the sanitized new rows. -/
theorem append_rolling_eviction (table new_rows : List (List Cell)) (max_rows : Nat)
    (hnew : new_rows ≠ [])
    (hcap : max_rows < table.length + new_rows.length)
    (hev : 0 < min (table.length + new_rows.length - max_rows) (table.length - 1)) :
    append_rolling_data table new_rows max_rows
      = [SheetOp.deleteRows 2
          (min (table.length + new_rows.length - max_rows) (table.length - 1) + 1),
         SheetOp.appendRows (new_rows.map sanitizeRow)]
    ∧ applySheetOps table (append_rolling_data table new_rows max_rows)
        = table.take 1
          ++ table.drop (min (table.length + new_rows.length - max_rows) (table.length - 1) + 1)
          ++ new_rows.map sanitizeRow := by
  have hne : new_rows.isEmpty = false := by
    cases new_rows with
    | nil => exact absurd rfl hnew
    | cons a l => rfl
  have hmin : rolling_rows_to_delete table.length new_rows.length max_rows
      = min (table.length + new_rows.length - max_rows) (table.length - 1) := by
    rw [rolling_rows_to_delete_eq_min, Nat.min_comm]
  have hops : append_rolling_data table new_rows max_rows
      = [SheetOp.deleteRows 2
          (min (table.length + new_rows.length - max_rows) (table.length - 1) + 1),
         SheetOp.appendRows (new_rows.map sanitizeRow)] := by
    unfold append_rolling_data
    rw [if_neg (by simp [hne]), if_pos hcap, if_pos (by rw [hmin]; exact hev), hmin]
    have h21 : 2 + min (table.length + new_rows.length - max_rows) (table.length - 1) - 1
        = min (table.length + new_rows.length - max_rows) (table.length - 1) + 1 := by
      omega
    rw [h21]
    rfl
  refine ⟨hops, ?_⟩
  rw [hops]
  simp [applySheetOps, applySheetOp]

/-- C2 witness at the specification scenario: a table at capacity
`max_rows = 5` (header plus 4 data rows) receiving 3 new rows evicts
exactly `5 + 3 - 5 = 3` oldest data rows before appending. -/
theorem append_rolling_eviction_witness :
    append_rolling_data rollTable5 rollNewE 5
      = [SheetOp.deleteRows 2
          (min (rollTable5.length + rollNewE.length - 5) (rollTable5.length - 1) + 1),
         SheetOp.appendRows (rollNewE.map sanitizeRow)]
    ∧ applySheetOps rollTable5 (append_rolling_data rollTable5 rollNewE 5)
        = rollTable5.take 1
          ++ rollTable5.drop (min (rollTable5.length + rollNewE.length - 5) (rollTable5.length - 1) + 1)
          ++ rollNewE.map sanitizeRow :=
  append_rolling_eviction rollTable5 rollNewE 5 (by decide) (by decide) (by decide)

/-- C7: with an empty batch, `append_rolling_data` issues no mutation at
all, and the stored table is unchanged. -/
theorem append_rolling_empty_noop (table : List (List Cell)) (max_rows : Nat) :
    append_rolling_data table [] max_rows = []
    ∧ applySheetOps table (append_rolling_data table [] max_rows) = table :=
  ⟨rfl, rfl⟩

/-- C3: a row passes the `create_pivot` filter, and hence contributes a
row to the breakdown, iff its creation date truncated to calendar day
lies in the closed interval and its brand field equals the selected brand
exactly; both endpoints are included since the comparisons are `≤`. -/
theorem create_pivot_filter_inclusion (df : List ReportRow) (startDate endDate : Int)
    (brand : String) (r : ReportRow) :
    (r ∈ pivot_filter df startDate endDate brand ↔
      r ∈ df ∧ (startDate ≤ r.createdDate.day ∧ r.createdDate.day ≤ endDate)
        ∧ r.customerName = brand)
    ∧ create_pivot_breakdown df startDate endDate brand
        = (pivot_filter df startDate endDate brand).map convert_row := by
  refine ⟨?_, rfl⟩
  simp only [pivot_filter, List.mem_filter, Bool.and_eq_true, decide_eq_true_eq, beq_iff_eq,
    and_assoc]

/-- C4: when no row matches the date range together with the brand, the
Breakdown Table is empty and the pivot is empty; the computation is total
(no error). -/
theorem create_pivot_no_match (df : List ReportRow) (startDate endDate : Int) (brand : String)
    (h : ∀ r ∈ df, ¬(startDate ≤ r.createdDate.day ∧ r.createdDate.day ≤ endDate
          ∧ r.customerName = brand)) :
    create_pivot_breakdown df startDate endDate brand = []
    ∧ create_pivot df startDate endDate brand = [] := by
  have hf : pivot_filter df startDate endDate brand = [] := by
    unfold pivot_filter
    rw [List.filter_eq_nil_iff]
    intro r hr
    rw [List.mem_filter] at hr
    obtain ⟨hrdf, hdate⟩ := hr
    simp only [Bool.and_eq_true, decide_eq_true_eq] at hdate
    simp only [beq_iff_eq]
    intro hb
    exact h r hrdf ⟨hdate.1, hdate.2, hb⟩
  constructor
  · unfold create_pivot_breakdown
    rw [hf]
    rfl
  · unfold create_pivot create_pivot_breakdown pivot_index
    rw [hf]
    rfl

/-- C4 witness: a one-row dump and a brand matching no row yield an empty
breakdown and an empty pivot. -/
theorem create_pivot_no_match_witness :
    create_pivot_breakdown [acmeRow] 1 10 "NoSuchBrand" = []
    ∧ create_pivot [acmeRow] 1 10 "NoSuchBrand" = [] :=
  create_pivot_no_match [acmeRow] 1 10 "NoSuchBrand" (by decide)

/-- C6: a filtered row whose monetary field is non-numeric or missing
contributes a breakdown row whose coerced amount is exactly 0. -/
theorem breakdown_amount_coerced_zero (df : List ReportRow) (startDate endDate : Int)
    (brand : String) (r : ReportRow)
    (hr : r ∈ pivot_filter df startDate endDate brand)
    (hbad : (∃ s, r.amountPayable = AmountVal.nonNumeric s)
        ∨ r.amountPayable = AmountVal.missing) :
    (convert_row r).codAmountPayable = 0
    ∧ convert_row r ∈ create_pivot_breakdown df startDate endDate brand := by
  constructor
  · rcases hbad with ⟨s, hs⟩ | hm
    · simp [convert_row, to_numeric_fillna_zero, hs]
    · simp [convert_row, to_numeric_fillna_zero, hm]
  · exact List.mem_map_of_mem convert_row hr

/-- C6 witness: a concrete in-range row with a non-parsing amount string
lands in the breakdown with amount 0. -/
theorem breakdown_amount_coerced_zero_witness :
    (convert_row badAmountRow).codAmountPayable = 0
    ∧ convert_row badAmountRow ∈ create_pivot_breakdown [badAmountRow] 1 10 "Acme" :=
  breakdown_amount_coerced_zero [badAmountRow] 1 10 "Acme" badAmountRow (by decide)
    (Or.inl ⟨"n/a", rfl⟩)

/-- Dict membership as key membership. -/
theorem dictContains_eq_true {α : Type} (d : List (String × α)) (k : String) :
    dictContains d k = true ↔ k ∈ dictKeys d := by
  simp only [dictContains, dictKeys, List.any_eq_true, List.mem_map, beq_iff_eq]

/-- Dict non-membership as key non-membership. -/
theorem dictContains_eq_false {α : Type} (d : List (String × α)) (k : String) :
    dictContains d k = false ↔ k ∉ dictKeys d := by
  rw [Bool.eq_false_iff, Ne, dictContains_eq_true]

/-- Assigning a fresh key appends the binding at the end. -/
theorem dictInsert_of_fresh {α : Type} (d : List (String × α)) (k : String) (v : α)
    (h : dictContains d k = false) :
    dictInsert d k v = d ++ [(k, v)] := by
  simp [dictInsert, h]

/-- Dict membership distributes over appended association lists. -/
theorem dictContains_append {α : Type} (d₁ d₂ : List (String × α)) (k : String) :
    dictContains (d₁ ++ d₂) k = (dictContains d₁ k || dictContains d₂ k) := by
  simp [dictContains, List.any_append]

/-- Lookup misses an association list containing no binding for the key. -/
theorem find_none_of_not_contains {α : Type} (d : List (String × α)) (k : String)
    (h : dictContains d k = false) :
    d.find? (fun p => p.1 == k) = none := by
  rw [List.find?_eq_none]
  intro p hp
  simp only [dictContains, List.any_eq_false] at h
  exact h p hp

/-- Folding fresh assignments over distinct keys lays the bindings out in
order, exactly one per mapping item. -/
theorem foldl_dictInsert_eq (bd : Breakdown) (m : List (String × String)) :
    ∀ acc : List (String × List String),
      (∀ p ∈ m, dictContains acc p.1 = false) →
      (m.map Prod.fst).Nodup →
      m.foldl (fun a p => dictInsert a p.1 (breakdownColumn bd p.2)) acc
        = acc ++ m.map (fun p => (p.1, breakdownColumn bd p.2)) := by
  induction m with
  | nil =>
    intro acc _ _
    simp
  | cons q m ih =>
    intro acc hfresh hnd
    obtain ⟨k, o⟩ := q
    rw [List.foldl_cons, dictInsert_of_fresh _ _ _ (hfresh (k, o) (List.mem_cons_self _ _))]
    have hk : k ∉ m.map Prod.fst := by
      rw [List.map_cons, List.nodup_cons] at hnd
      exact hnd.1
    rw [ih (acc ++ [(k, breakdownColumn bd o)]) ?_ ?_]
    · simp
    · intro p hp
      have h1 : dictContains acc p.1 = false := hfresh p (List.mem_cons_of_mem _ hp)
      have h2 : p.1 ≠ k := fun he => hk (he ▸ List.mem_map_of_mem Prod.fst hp)
      rw [dictContains_append, h1, Bool.false_or]
      simp only [dictContains, List.any_cons, List.any_nil, Bool.or_false,
        beq_eq_false_iff_ne, Ne]
      exact fun he => h2 he.symm
    · rw [List.map_cons, List.nodup_cons] at hnd
      exact hnd.2

/-- The keys of the laid-out mapping bindings are the mapping keys. -/
theorem dictKeys_map_mapping (bd : Breakdown) (m : List (String × String)) :
    dictKeys (m.map (fun p => (p.1, breakdownColumn bd p.2))) = m.map Prod.fst := by
  induction m with
  | nil => rfl
  | cons q m ih =>
    simp only [List.map_cons, dictKeys] at ih ⊢
    rw [ih]

/-- The `new_data` dict in closed form, under the well-formedness of a
JSON config: distinct mapping keys and a UTR name not colliding with
them. -/
theorem build_new_data_eq (bd : Breakdown) (config : CompanyConfig)
    (hnd : (config.column_mapping.map Prod.fst).Nodup)
    (hutr : utrColumnName config ∉ config.column_mapping.map Prod.fst) :
    build_new_data bd config
      = config.column_mapping.map (fun p => (p.1, breakdownColumn bd p.2))
        ++ [(utrColumnName config, List.replicate bd.nrows "")] := by
  unfold build_new_data
  rw [foldl_dictInsert_eq bd config.column_mapping [] (fun p _ => rfl) hnd,
    List.nil_append]
  apply dictInsert_of_fresh
  rw [dictContains_eq_false, dictKeys_map_mapping]
  exact hutr

/-- Looking a mapping key up in the laid-out bindings returns the
corresponding breakdown column. -/
theorem dictGet_map_mapping (bd : Breakdown) (m : List (String × String)) :
    ∀ {nc oc : String}, (m.map Prod.fst).Nodup → (nc, oc) ∈ m →
      dictGet (m.map (fun p => (p.1, breakdownColumn bd p.2))) nc
        = some (breakdownColumn bd oc) := by
  induction m with
  | nil =>
    intro nc oc _ hmem
    exact absurd hmem (List.not_mem_nil _)
  | cons q m ih =>
    intro nc oc hnd hmem
    obtain ⟨k, o⟩ := q
    rw [List.map_cons, List.nodup_cons] at hnd
    by_cases hk : k = nc
    · subst hk
      rcases List.mem_cons.mp hmem with he | hm
      · cases he
        simp only [List.map_cons, dictGet]
        rw [List.find?_cons_of_pos _ (by simp)]
        rfl
      · exact absurd (List.mem_map_of_mem Prod.fst hm) hnd.1
    · have hm : (nc, oc) ∈ m := by
        rcases List.mem_cons.mp hmem with he | hm
        · cases he
          exact absurd rfl hk
        · exact hm
      have step : dictGet (((k, o) :: m).map (fun p => (p.1, breakdownColumn bd p.2))) nc
          = dictGet (m.map (fun p => (p.1, breakdownColumn bd p.2))) nc := by
        simp only [List.map_cons, dictGet]
        rw [List.find?_cons_of_neg _ (by simp [hk])]
      rw [step]
      exact ih hnd.2 hm

/-- Elements of a replicate list, with default, are the replicated value. -/
theorem replicate_getD (n i : Nat) :
    (List.replicate n "").getD i "" = "" := by
  rcases lt_or_ge i n with h | h
  · simp [List.getD, List.getElem?_replicate, h]
  · simp [List.getD, List.getElem?_eq_none, h]

/-- C5 (as stated) is false: when the UTR column name collides with a
mapped target column name, the Python dict assignment overwrites the
mapped column instead of adding one, so data rows carry
`len(column_mapping)` cells rather than `len(column_mapping) + 1`. -/
theorem claim_C5_counterexample :
    ((create_excel_from_breakdown bdCollide cfgCollide).getD 1 []).length
      ≠ cfgCollide.column_mapping.length + 1 := by
  decide

/-- C5 (amended): provided the layout spec is well formed — mapping keys
distinct (they come from a JSON object) and the UTR column name distinct
from every mapped target column name — the emitted document has exactly
`len(header_lines) + line_gaps + 1` rows before the first data row, every
table row (the column-name row and each data row) has exactly
`len(column_mapping) + 1` cells, and the trailing UTR column consists
entirely of empty values. -/
theorem create_excel_layout (bd : Breakdown) (config : CompanyConfig)
    (hnd : (config.column_mapping.map Prod.fst).Nodup)
    (hutr : utrColumnName config ∉ config.column_mapping.map Prod.fst) :
    (create_excel_from_breakdown bd config).length
      = config.headers.length + config.line_gaps + 1 + bd.nrows
    ∧ (create_excel_from_breakdown bd config).drop
        (config.headers.length + config.line_gaps + 1)
        = df_values_rows (build_new_data bd config) bd.nrows
    ∧ (dictKeys (build_new_data bd config)).length = config.column_mapping.length + 1
    ∧ (∀ row ∈ df_values_rows (build_new_data bd config) bd.nrows,
        row.length = config.column_mapping.length + 1 ∧ row.getLast? = some "")
    ∧ dictGet (build_new_data bd config) (utrColumnName config)
        = some (List.replicate bd.nrows "") := by
  have hbd := build_new_data_eq bd config hnd hutr
  have hkeys : (dictKeys (build_new_data bd config)).length
      = config.column_mapping.length + 1 := by
    rw [hbd]
    simp [dictKeys]
  refine ⟨?_, ?_, hkeys, ?_, ?_⟩
  · unfold create_excel_from_breakdown df_values_rows
    simp only [List.length_append, List.length_map, List.length_replicate,
      List.length_range, List.length_cons, List.length_nil]
  · unfold create_excel_from_breakdown
    apply List.drop_left'
    simp only [List.length_append, List.length_map, List.length_replicate,
      List.length_cons, List.length_nil]
  · intro row hrow
    unfold df_values_rows at hrow
    simp only [List.mem_map, List.mem_range] at hrow
    obtain ⟨i, hi, rfl⟩ := hrow
    constructor
    · rw [List.length_map, hbd]
      simp
    · rw [hbd, List.map_append]
      simp [replicate_getD]
  · rw [hbd]
    unfold dictGet
    rw [List.find?_append, find_none_of_not_contains]
    · simp [List.find?]
    · rw [dictContains_eq_false, dictKeys_map_mapping]
      exact hutr

/-- C5 (amended) witness at the concrete demo spec: two header lines, one
gap, two mapped columns and a fresh UTR name over a two-row breakdown. -/
theorem create_excel_layout_witness :
    (create_excel_from_breakdown bdDemo cfgDemo).length
      = cfgDemo.headers.length + cfgDemo.line_gaps + 1 + bdDemo.nrows
    ∧ (create_excel_from_breakdown bdDemo cfgDemo).drop
        (cfgDemo.headers.length + cfgDemo.line_gaps + 1)
        = df_values_rows (build_new_data bdDemo cfgDemo) bdDemo.nrows
    ∧ (dictKeys (build_new_data bdDemo cfgDemo)).length
        = cfgDemo.column_mapping.length + 1
    ∧ (∀ row ∈ df_values_rows (build_new_data bdDemo cfgDemo) bdDemo.nrows,
        row.length = cfgDemo.column_mapping.length + 1 ∧ row.getLast? = some "")
    ∧ dictGet (build_new_data bdDemo cfgDemo) (utrColumnName cfgDemo)
        = some (List.replicate bdDemo.nrows "") :=
  create_excel_layout bdDemo cfgDemo (by decide) (by decide)

/-- C8: a mapped canonical field absent from the breakdown columns yields
an output column filled with empty values for all rows, and every mapped
column — the missing one and all others alike — carries exactly its
standard value `breakdownColumn`, so the other columns are unaffected. -/
theorem create_excel_missing_column (bd : Breakdown) (config : CompanyConfig)
    (nc oc : String)
    (hnd : (config.column_mapping.map Prod.fst).Nodup)
    (hutr : utrColumnName config ∉ config.column_mapping.map Prod.fst)
    (hmem : (nc, oc) ∈ config.column_mapping)
    (hmiss : dictContains bd.columns oc = false) :
    dictGet (build_new_data bd config) nc = some (List.replicate bd.nrows "")
    ∧ ∀ p ∈ config.column_mapping,
        dictGet (build_new_data bd config) p.1 = some (breakdownColumn bd p.2) := by
  have hall : ∀ p ∈ config.column_mapping,
      dictGet (build_new_data bd config) p.1 = some (breakdownColumn bd p.2) := by
    intro p hp
    rw [build_new_data_eq bd config hnd hutr]
    unfold dictGet
    rw [List.find?_append]
    have hfst := dictGet_map_mapping bd config.column_mapping hnd
      (show (p.1, p.2) ∈ config.column_mapping from hp)
    unfold dictGet at hfst
    rcases hfind : List.find?
        (fun q => q.1 == p.1)
        (config.column_mapping.map (fun q => (q.1, breakdownColumn bd q.2))) with _ | v
    · rw [hfind] at hfst
      exact absurd hfst (by simp)
    · rw [hfind] at hfst
      rw [hfind]
      exact hfst
  have hzero : breakdownColumn bd oc = List.replicate bd.nrows "" := by
    unfold breakdownColumn
    rw [find_none_of_not_contains bd.columns oc hmiss]
  refine ⟨?_, hall⟩
  have := hall (nc, oc) hmem
  rw [hzero] at this
  exact this

/-- C8 witness: the demo breakdown lacks the canonical field of the
second mapped column, which is therefore empty-filled, while the first
mapped column keeps its values. -/
theorem create_excel_missing_column_witness :
    dictGet (build_new_data bdDemo cfgDemo) "Amt"
      = some (List.replicate bdDemo.nrows "")
    ∧ ∀ p ∈ cfgDemo.column_mapping,
        dictGet (build_new_data bdDemo cfgDemo) p.1
          = some (breakdownColumn bdDemo p.2) :=
  create_excel_missing_column bdDemo cfgDemo "Amt" "COD Amount/Amount payable"
    (by decide) (by decide) (by decide) (by decide)

/-- C9: a company name with no layout spec in the collection makes
`process_breakdown` fail with the `get_company_config` error, aborting
before any document is produced: the result is an error, not a document. -/
theorem process_breakdown_unknown_company (configs : List CompanyConfig) (bd : Breakdown)
    (company_name : String)
    (h : ∀ c ∈ configs, c.company_name ≠ company_name) :
    process_breakdown configs bd company_name
      = Except.error ("Configuration for company " ++ company_name ++ " not found") := by
  have hfind : configs.find? (fun c => c.company_name == company_name) = none := by
    rw [List.find?_eq_none]
    intro c hc
    simpa using h c hc
  unfold process_breakdown get_company_config
  rw [hfind]

/-- C9 witness: a collection holding only the demo spec has no
configuration for company OLAMBIT. -/
theorem process_breakdown_unknown_company_witness :
    process_breakdown [cfgDemo] bdDemo "OLAMBIT"
      = Except.error ("Configuration for company " ++ "OLAMBIT" ++ " not found") :=
  process_breakdown_unknown_company [cfgDemo] bdDemo "OLAMBIT" (by decide)

/-- Writing a block at A1 of an empty (fresh or cleared) worksheet yields
exactly the block. -/
theorem updateA1Grid_nil (v : List (List Cell)) : updateA1Grid [] v = v := by
  cases v <;> rfl

/-- C10 (as stated) is false: on a worksheet whose name contains `pivot`
(case-insensitively), `upload` resets the index into a leading column, so
the written header row is not the list of the DataFrame column names (it
additionally starts with the index name). -/
theorem claim_C10_counterexample :
    (applyUploadOps gridOld (upload true dfPivotDemo "Pivot Table")).headD []
      ≠ dfPivotDemo.colNames.map Cell.str := by
  decide

/-- C10 (amended): `upload` always issues create-or-clear strictly before
the single A1 write, and the final worksheet is exactly the prepared
block whatever was stored before — no previous row survives; the block
has one header row plus one row per DataFrame row; on non-pivot-named
worksheets the header row is exactly the DataFrame column names and the
body rows the sanitized rows, while on pivot-named worksheets the header
row is the index name followed by the column names. -/
theorem upload_replaces (g : List (List Cell)) (wsExists : Bool) (df : DFrame)
    (sheet_name : String) (hwf : df.indexVals.length = df.rows.length) :
    applyUploadOps g (upload wsExists df sheet_name) = upload_values df sheet_name
    ∧ (upload_values df sheet_name).length = df.rows.length + 1
    ∧ (contains_pivot sheet_name = false →
        upload_values df sheet_name
          = df.colNames.map Cell.str :: df.rows.map sanitizeRow)
    ∧ (contains_pivot sheet_name = true →
        (upload_values df sheet_name).headD []
          = (df.indexName :: df.colNames).map Cell.str) := by
  refine ⟨?_, ?_, ?_, ?_⟩
  · cases wsExists <;>
      simp [upload, applyUploadOps, applyUploadOp, updateA1Grid_nil]
  · unfold upload_values
    by_cases hp : contains_pivot sheet_name
    · rw [if_pos hp]
      simp [List.length_zipWith, hwf]
    · rw [if_neg hp]
      simp
  · intro hnp
    unfold upload_values
    rw [if_neg (by simp [hnp])]
  · intro hp
    unfold upload_values
    rw [if_pos hp]
    rfl

/-- C10 (amended) witness: uploading a concrete two-row frame to a
non-pivot worksheet over stale contents. -/
theorem upload_replaces_witness :
    applyUploadOps gridOld (upload true dfPlainDemo "Loadshare Dump")
      = upload_values dfPlainDemo "Loadshare Dump"
    ∧ (upload_values dfPlainDemo "Loadshare Dump").length = dfPlainDemo.rows.length + 1
    ∧ (contains_pivot "Loadshare Dump" = false →
        upload_values dfPlainDemo "Loadshare Dump"
          = dfPlainDemo.colNames.map Cell.str :: dfPlainDemo.rows.map sanitizeRow)
    ∧ (contains_pivot "Loadshare Dump" = true →
        (upload_values dfPlainDemo "Loadshare Dump").headD []
          = (dfPlainDemo.indexName :: dfPlainDemo.colNames).map Cell.str) :=
  upload_replaces gridOld true dfPlainDemo "Loadshare Dump" (by decide)

end BrandSop
